import Mathlib

/-!
# otio-aaf: the native Go AAF adapter

A shallow embedding of the three source files of the package `aaf`
(`aaf.go`, `decoder.go`, `encoder.go`) and the properties of its facade.

Conventions of the embedding.

* A Go interface value (`error`, `io.Reader`, `io.Writer`,
  `SerializableObject`) or pointer (`*Timeline`) is an `Option`; `none` is
  Go `nil`.
* A Go `string` is a Lean `String`; `fmt.Sprintf` with the single verb `%s`
  applied to a string is concatenation of the text around the verb with the
  argument.
* A method with a pointer receiver is a function that takes the receiver and
  returns the results of the Go method together with the receiver after the
  call, so that what the call did to the receiver and to the stream behind it
  is part of the result.
-/

set_option linter.unusedVariables false

namespace aaf

/-! ## Streams -/

/-- One octet of a stream. -/
abbrev Byte := Fin 256

/-- An `io.Reader` over a byte stream: the stream content and the number of
bytes already consumed by `Read` calls. -/
structure Reader where
  data : List Byte
  pos : Nat
deriving DecidableEq, Repr

/-- An `io.Writer` modelled as the byte sequence written to it so far. -/
structure Writer where
  written : List Byte
deriving DecidableEq, Repr

/-! ## Error values (`aaf.go`) -/

/-- The struct `DecodeError` of `aaf.go`. -/
structure DecodeError where
  Message : String
deriving DecidableEq, Repr

/-- The struct `EncodeError` of `aaf.go`. -/
structure EncodeError where
  Message : String
deriving DecidableEq, Repr

/-- The struct `UnsupportedVersionError` of `aaf.go`. -/
structure UnsupportedVersionError where
  Version : String
deriving DecidableEq, Repr

/-- The method `(*DecodeError).Error`:
`fmt.Sprintf("aaf decode error: %s", e.Message)`. -/
def DecodeError.Error (e : DecodeError) : String :=
  "aaf decode error: " ++ e.Message

/-- The method `(*EncodeError).Error`:
`fmt.Sprintf("aaf encode error: %s", e.Message)`. -/
def EncodeError.Error (e : EncodeError) : String :=
  "aaf encode error: " ++ e.Message

/-- The method `(*UnsupportedVersionError).Error`:
`fmt.Sprintf("aaf: unsupported version %s", e.Version)`. -/
def UnsupportedVersionError.Error (e : UnsupportedVersionError) : String :=
  "aaf: unsupported version " ++ e.Version

/-- The dynamic values a non-nil `error` of this package can hold: the value
made by `errors.New` (a `*errors.errorString`) and the three pointer types
declared in `aaf.go`. -/
inductive GoError where
  | errorString (s : String)
  | decodeError (e : DecodeError)
  | encodeError (e : EncodeError)
  | unsupportedVersionError (e : UnsupportedVersionError)
deriving DecidableEq, Repr

/-- The Go interface type `error`; `none` is the nil error. -/
abbrev Error := Option GoError

/-- The method `Error()` of the interface, dispatched on the dynamic type. -/
def GoError.Error : GoError → String
  | .errorString s => s
  | .decodeError e => e.Error
  | .encodeError e => e.Error
  | .unsupportedVersionError e => e.Error

/-- The standard library function `errors.New`. -/
def errors.New (text : String) : Error :=
  some (GoError.errorString text)

/-- The package variable `ErrNotImplemented` of `aaf.go`. -/
def ErrNotImplemented : Error :=
  errors.New "aaf: native Go implementation not available, use Python bridge for AAF support"

/-! ## The interchange timeline model (external collaborator) -/

/-- Modelled from the spec: an exact time value, a numerator and denominator
pair (section 4.2); the type lives in the external timeline library. -/
structure RationalTime where
  num : Int
  den : Nat
deriving DecidableEq, Repr

/-- Modelled from the spec: the time range carried by every item
(section 3); the type lives in the external timeline library. -/
structure TimeRange where
  start : RationalTime
  duration : RationalTime
deriving DecidableEq, Repr

/-- Modelled from the spec: the closed set of item kinds of section 9
(Clip, Gap, Transition, NestedComposition and the verbatim pass-through item
for object kinds the mapper does not interpret). -/
inductive ItemKind where
  | clip
  | gap
  | transition
  | nestedComposition
  | passthrough
deriving DecidableEq, Repr

/-- Modelled from the spec: a marker attached to an item (section 3). -/
structure Marker where
  name : String
  range : TimeRange
deriving DecidableEq, Repr

/-- Modelled from the spec: an item of a track, carrying a time range, a
metadata mapping and optional markers (section 3). -/
structure Item where
  kind : ItemKind
  range : TimeRange
  metadata : List (String × String)
  markers : List Marker
deriving DecidableEq, Repr

/-- Modelled from the spec: a track, an ordered sequence of items
(section 3). -/
structure Track where
  items : List Item
deriving DecidableEq, Repr

/-- Modelled from the spec: the type `Timeline` of the external timeline
library, an ordered sequence of tracks (section 3). -/
structure Timeline where
  tracks : List Track
deriving DecidableEq, Repr

/-- Modelled from the spec: the interface `SerializableObject` of the
external timeline library, implemented by timelines, tracks and items. -/
inductive SerializableObject where
  | timeline (t : Timeline)
  | track (t : Track)
  | item (i : Item)
deriving DecidableEq, Repr

/-- Modelled from the spec: a timeline is built purely from constructs the
mapper supports when every item is a Clip, Gap, Transition or Nested
Composition (section 4.4). -/
def Timeline.supported (t : Timeline) : Bool :=
  t.tracks.all fun tr => tr.items.all fun it => it.kind != ItemKind.passthrough

/-- Modelled from the spec: what the round-trip equality of section 8
compares, track by track and item by item: kind, range and metadata. -/
def Timeline.shape (t : Timeline) : List (List (ItemKind × TimeRange × List (String × String))) :=
  t.tracks.map fun tr => tr.items.map fun it => (it.kind, it.range, it.metadata)

/-- Modelled from the spec: the defined equality of section 8, same track
count and order, same item kinds, ranges and metadata. -/
def Timeline.equivalent (a b : Timeline) : Prop :=
  a.shape = b.shape

/-! ## Option maps (`map[string]interface{}`) -/

/-- The dynamic values stored in an options map: the value types named in the
doc comments of `DecodeWithOptions` and `EncodeWithOptions` (bool, int,
string, and float64 kept as its bit pattern) and the nil interface. -/
inductive AnyValue where
  | nil
  | bool (b : Bool)
  | int (i : Int)
  | str (s : String)
  | float64 (bits : Nat)
deriving DecidableEq, Repr

/-- A Go `map[string]interface{}`: `none` is the nil map, `some kvs` a map
holding the listed entries. -/
abbrev Options := Option (List (String × AnyValue))

/-- The map `m` extended by the entry `k ↦ v` (an entry for `k` already in
`m` is replaced). -/
def Options.extend (m : Options) (k : String) (v : AnyValue) : Options :=
  some ((k, v) :: (m.getD []).filter fun kv => kv.1 != k)

/-- The option names listed in the doc comment of `DecodeWithOptions`. -/
def decodeOptionNames : List String :=
  ["simplified", "attach_markers", "transcribe_linear_speed_effects", "rate"]

/-- The option names listed in the doc comment of `EncodeWithOptions`. -/
def encodeOptionNames : List String :=
  ["metadata_encoding", "simplify", "clip_name_limit"]

/-! ## Decoder (`decoder.go`) -/

/-- The struct `Decoder`. -/
structure Decoder where
  r : Option Reader
deriving DecidableEq, Repr

/-- The constructor `NewDecoder`: `return &Decoder{r: r}`. -/
def NewDecoder (r : Option Reader) : Decoder :=
  Decoder.mk r

/-- The method `(*Decoder).Decode`: `return nil, ErrNotImplemented`.
The third component is the decoder after the call. -/
def Decoder.Decode (d : Decoder) : Option Timeline × Error × Decoder :=
  (none, ErrNotImplemented, d)

/-- The method `(*Decoder).DecodeWithOptions`: `return nil, ErrNotImplemented`.
The third component is the decoder after the call. -/
def Decoder.DecodeWithOptions (d : Decoder) (options : Options) :
    Option SerializableObject × Error × Decoder :=
  (none, ErrNotImplemented, d)

/-! ## Encoder (`encoder.go`) -/

/-- The struct `Encoder`. -/
structure Encoder where
  w : Option Writer
deriving DecidableEq, Repr

/-- The constructor `NewEncoder`: `return &Encoder{w: w}`. -/
def NewEncoder (w : Option Writer) : Encoder :=
  Encoder.mk w

/-- The method `(*Encoder).Encode`: `return ErrNotImplemented`.
The second component is the encoder after the call. -/
def Encoder.Encode (e : Encoder) (t : Option Timeline) : Error × Encoder :=
  (ErrNotImplemented, e)

/-- The method `(*Encoder).EncodeWithOptions`: `return ErrNotImplemented`.
The second component is the encoder after the call. -/
def Encoder.EncodeWithOptions (e : Encoder) (obj : Option SerializableObject)
    (options : Options) : Error × Encoder :=
  (ErrNotImplemented, e)

/-- The bytes held by the writer of an encoder (none for a nil writer). -/
def Encoder.output (e : Encoder) : List Byte :=
  match e.w with
  | some w => w.written
  | none => []

/-! ## Sample inputs -/

/-- A frame-accurate range at 24 frames per second. -/
def rangeAt (startFrame frames : Int) : TimeRange :=
  TimeRange.mk (RationalTime.mk startFrame 24) (RationalTime.mk frames 24)

/-- The scenario timeline of section 8 of the spec: one track, two clips and
a one-second cross-dissolve between them. -/
def sampleTimeline : Timeline :=
  Timeline.mk [Track.mk
    [ Item.mk ItemKind.clip (rangeAt 0 48) [("name", "A")] [],
      Item.mk ItemKind.transition (rangeAt 48 24) [] [],
      Item.mk ItemKind.clip (rangeAt 72 48) [("name", "B")] [] ]]

/-- A stream that opens with the Structured-Storage signature followed by a
version field holding 0xFFFF, a major version no reader knows. -/
def sampleVersionStream : List Byte :=
  [0xD0, 0xCF, 0x11, 0xE0, 0xA1, 0xB1, 0x1A, 0xE1, 0xFF, 0xFF]

/-! ## Statements of the round-trip property -/

/-- The round-trip property of section 8 at one timeline: `Encode` into a
fresh empty writer succeeds, `Decode` of the bytes the writer then holds
succeeds, and the decoded timeline is equivalent to the original. -/
def RoundTrips (t : Timeline) : Prop :=
  ((NewEncoder (some (Writer.mk []))).Encode (some t)).1 = none ∧
  ∃ t' : Timeline,
    (NewDecoder (some (Reader.mk
      ((NewEncoder (some (Writer.mk []))).Encode (some t)).2.output 0))).Decode.1 = some t' ∧
    (NewDecoder (some (Reader.mk
      ((NewEncoder (some (Writer.mk []))).Encode (some t)).2.output 0))).Decode.2.1 = none ∧
    t'.equivalent t

/-! ## Helper lemmas -/

theorem errNotImplemented_eq :
    ErrNotImplemented = some (GoError.errorString
      "aaf: native Go implementation not available, use Python bridge for AAF support") :=
  rfl

theorem errNotImplemented_ne_nil : ErrNotImplemented ≠ none := by
  rw [errNotImplemented_eq]
  exact Option.some_ne_none _

theorem errNotImplemented_not_encodeError (ee : EncodeError) :
    ErrNotImplemented ≠ some (GoError.encodeError ee) := by
  rw [errNotImplemented_eq]
  intro h
  cases h

theorem errNotImplemented_not_unsupportedVersion (ve : UnsupportedVersionError) :
    ErrNotImplemented ≠ some (GoError.unsupportedVersionError ve) := by
  rw [errNotImplemented_eq]
  intro h
  cases h

theorem string_append_left_cancel (p a b : String) (h : p ++ a = p ++ b) : a = b := by
  have hd : (p ++ a).data = (p ++ b).data := by rw [h]
  rw [String.data_append, String.data_append] at hd
  exact String.ext (List.append_cancel_left hd)

/-! ## The facade always reports the sentinel -/

/-- C1: for every Decoder, and for the Decoder built by `NewDecoder` from any
reader (nil and empty readers included), `Decode` returns a nil Timeline
together with exactly the sentinel `ErrNotImplemented`, which is a non-nil
error. -/
theorem decode_returns_not_implemented (d : Decoder) (r : Option Reader) :
    d.Decode.1 = none ∧ d.Decode.2.1 = ErrNotImplemented ∧
    (NewDecoder r).Decode.1 = none ∧ (NewDecoder r).Decode.2.1 = ErrNotImplemented ∧
    (NewDecoder none).Decode.2.1 = ErrNotImplemented ∧
    (NewDecoder (some (Reader.mk [] 0))).Decode.2.1 = ErrNotImplemented ∧
    ErrNotImplemented ≠ none :=
  ⟨rfl, rfl, rfl, rfl, rfl, rfl, errNotImplemented_ne_nil⟩

/-- C2: for every Encoder, and for the Encoder built by `NewEncoder` from any
writer, and for every timeline argument (nil included), `Encode` returns
exactly the sentinel `ErrNotImplemented`, which is a non-nil error. -/
theorem encode_returns_not_implemented (e : Encoder) (w : Option Writer)
    (t : Option Timeline) :
    (e.Encode t).1 = ErrNotImplemented ∧
    ((NewEncoder w).Encode t).1 = ErrNotImplemented ∧
    ((NewEncoder w).Encode none).1 = ErrNotImplemented ∧
    ErrNotImplemented ≠ none :=
  ⟨rfl, rfl, rfl, errNotImplemented_ne_nil⟩

/-! ## Round trip -/

/-- C3, counterexample: the scenario timeline (one track: clip, transition,
clip) is built purely from supported constructs, yet it does not round-trip:
`Encode` does not succeed on it. -/
theorem roundtrip_fails_on_sampleTimeline :
    sampleTimeline.supported = true ∧ ¬ RoundTrips sampleTimeline := by
  refine ⟨by decide, ?_⟩
  intro h
  exact errNotImplemented_ne_nil h.1

/-- C3, amended: for every timeline argument and every writer, `Encode`
fails with `ErrNotImplemented` and leaves the writer as it was, and `Decode`
of the bytes the writer holds after the call returns a nil Timeline with
`ErrNotImplemented`; no encode-then-decode ever succeeds. -/
theorem encode_then_decode_not_implemented (t : Option Timeline) (w : Option Writer) :
    ((NewEncoder w).Encode t).1 = ErrNotImplemented ∧
    ((NewEncoder w).Encode t).2.w = w ∧
    (NewDecoder (some (Reader.mk ((NewEncoder w).Encode t).2.output 0))).Decode.1 = none ∧
    (NewDecoder (some (Reader.mk ((NewEncoder w).Encode t).2.output 0))).Decode.2.1
      = ErrNotImplemented ∧
    ErrNotImplemented ≠ none :=
  ⟨rfl, rfl, rfl, rfl, errNotImplemented_ne_nil⟩

/-! ## Determinism of decoding -/

/-- C4: two readers over the same stream content give equal `Decode` results
(equal Timelines and equal errors), whatever their read positions; and a
second `Decode` on the same decoder returns what the first returned. -/
theorem decode_same_bytes_same_result (r₁ r₂ : Reader) (h : r₁.data = r₂.data) :
    (NewDecoder (some r₁)).Decode.1 = (NewDecoder (some r₂)).Decode.1 ∧
    (NewDecoder (some r₁)).Decode.2.1 = (NewDecoder (some r₂)).Decode.2.1 ∧
    (NewDecoder (some r₁)).Decode.2.2.Decode.1 = (NewDecoder (some r₁)).Decode.1 ∧
    (NewDecoder (some r₁)).Decode.2.2.Decode.2.1 = (NewDecoder (some r₁)).Decode.2.1 :=
  ⟨rfl, rfl, rfl, rfl⟩

/-- Witness for C4: two readers over the sample stream at different read
positions. -/
theorem decode_same_bytes_same_result_witness :
    (Reader.mk sampleVersionStream 0).data = (Reader.mk sampleVersionStream 3).data ∧
    (NewDecoder (some (Reader.mk sampleVersionStream 0))).Decode.1
      = (NewDecoder (some (Reader.mk sampleVersionStream 3))).Decode.1 ∧
    (NewDecoder (some (Reader.mk sampleVersionStream 0))).Decode.2.1
      = (NewDecoder (some (Reader.mk sampleVersionStream 3))).Decode.2.1 :=
  ⟨rfl,
   (decode_same_bytes_same_result (Reader.mk sampleVersionStream 0)
      (Reader.mk sampleVersionStream 3) rfl).1,
   (decode_same_bytes_same_result (Reader.mk sampleVersionStream 0)
      (Reader.mk sampleVersionStream 3) rfl).2.1⟩

/-! ## Option maps -/

/-- C5: for every options map `m` (nil included), every value `v` and every
key `k`: if `k` is not a decode option name, `DecodeWithOptions` with `m`
extended by `k` returns the same object and error as with `m`; if `k` is not
an encode option name, `EncodeWithOptions` with `m` extended by `k` returns
the same error as with `m`, for every object. -/
theorem unrecognized_option_ignored (m : Options) (k : String) (v : AnyValue) :
    (k ∉ decodeOptionNames → ∀ d : Decoder,
      (d.DecodeWithOptions (m.extend k v)).1 = (d.DecodeWithOptions m).1 ∧
      (d.DecodeWithOptions (m.extend k v)).2.1 = (d.DecodeWithOptions m).2.1) ∧
    (k ∉ encodeOptionNames → ∀ (e : Encoder) (obj : Option SerializableObject),
      (e.EncodeWithOptions obj (m.extend k v)).1 = (e.EncodeWithOptions obj m).1) :=
  ⟨fun _ _ => ⟨rfl, rfl⟩, fun _ _ _ => rfl⟩

/-- Witness for C5: the key `vendor_flag` added to the nil map. -/
theorem unrecognized_option_ignored_witness :
    "vendor_flag" ∉ decodeOptionNames ∧ "vendor_flag" ∉ encodeOptionNames ∧
    ((NewDecoder none).DecodeWithOptions
        (Options.extend none "vendor_flag" (AnyValue.bool true))).2.1
      = ((NewDecoder none).DecodeWithOptions none).2.1 ∧
    ((NewEncoder none).EncodeWithOptions none
        (Options.extend none "vendor_flag" (AnyValue.bool true))).1
      = ((NewEncoder none).EncodeWithOptions none none).1 :=
  ⟨by decide, by decide,
   ((unrecognized_option_ignored none "vendor_flag" (AnyValue.bool true)).1
      (by decide) (NewDecoder none)).2,
   (unrecognized_option_ignored none "vendor_flag" (AnyValue.bool true)).2
      (by decide) (NewEncoder none) none⟩

/-! ## Error results of decoding -/

/-- C6: for every decoder and every options map, whenever `Decode` or
`DecodeWithOptions` returns a non-nil error the returned Timeline / object
is nil, and exactly one of the two results is non-nil. -/
theorem decode_all_or_nothing (d : Decoder) (options : Options) :
    (d.Decode.2.1 ≠ none → d.Decode.1 = none) ∧
    ((d.DecodeWithOptions options).2.1 ≠ none → (d.DecodeWithOptions options).1 = none) ∧
    Xor' (d.Decode.1 ≠ none) (d.Decode.2.1 ≠ none) ∧
    Xor' ((d.DecodeWithOptions options).1 ≠ none) ((d.DecodeWithOptions options).2.1 ≠ none) := by
  refine ⟨fun _ => rfl, fun _ => rfl, Or.inr ⟨?_, ?_⟩, Or.inr ⟨?_, ?_⟩⟩
  · exact errNotImplemented_ne_nil
  · exact fun h => h rfl
  · exact errNotImplemented_ne_nil
  · exact fun h => h rfl

/-- Witness for C6: a decoder over the empty stream with the nil options
map; the error is non-nil and the Timeline and the object are nil. -/
theorem decode_all_or_nothing_witness :
    (NewDecoder (some (Reader.mk [] 0))).Decode.2.1 ≠ none ∧
    (NewDecoder (some (Reader.mk [] 0))).Decode.1 = none ∧
    ((NewDecoder (some (Reader.mk [] 0))).DecodeWithOptions none).1 = none :=
  ⟨errNotImplemented_ne_nil,
   (decode_all_or_nothing (NewDecoder (some (Reader.mk [] 0))) none).1
     errNotImplemented_ne_nil,
   (decode_all_or_nothing (NewDecoder (some (Reader.mk [] 0))) none).2.1
     errNotImplemented_ne_nil⟩

/-! ## Error results of encoding -/

/-- C7, counterexample: encoding the scenario timeline into an empty writer
returns an error that is neither nil nor a `*EncodeError`. -/
theorem encode_error_not_typed_on_sampleTimeline :
    ¬ (((NewEncoder (some (Writer.mk []))).Encode (some sampleTimeline)).1 = none ∨
       ∃ ee : EncodeError,
         ((NewEncoder (some (Writer.mk []))).Encode (some sampleTimeline)).1
           = some (GoError.encodeError ee)) := by
  rintro (h | ⟨ee, h⟩)
  · exact errNotImplemented_ne_nil h
  · exact errNotImplemented_not_encodeError ee h

/-- C7, amended: for every encoder, timeline, object and options map, the
error returned by `Encode` and by `EncodeWithOptions` is the sentinel
`ErrNotImplemented`: a non-nil value made by `errors.New`, whose dynamic type
is not `*EncodeError`. -/
theorem encode_error_is_sentinel (e : Encoder) (t : Option Timeline)
    (obj : Option SerializableObject) (options : Options) :
    (e.Encode t).1 = ErrNotImplemented ∧
    (e.EncodeWithOptions obj options).1 = ErrNotImplemented ∧
    ErrNotImplemented = errors.New
      "aaf: native Go implementation not available, use Python bridge for AAF support" ∧
    ErrNotImplemented ≠ none ∧
    (∀ ee : EncodeError, (e.Encode t).1 ≠ some (GoError.encodeError ee)) ∧
    (∀ ee : EncodeError,
      (e.EncodeWithOptions obj options).1 ≠ some (GoError.encodeError ee)) :=
  ⟨rfl, rfl, rfl, errNotImplemented_ne_nil,
   fun ee => errNotImplemented_not_encodeError ee,
   fun ee => errNotImplemented_not_encodeError ee⟩

/-! ## Version gate -/

/-- C8, counterexample: on the sample stream, whose version field holds the
unknown major version 0xFFFF, `Decode` returns `ErrNotImplemented`, and
there is no version `v` for which the returned error is an
`UnsupportedVersionError` carrying `v`. -/
theorem version_gate_fails_on_sampleVersionStream :
    (NewDecoder (some (Reader.mk sampleVersionStream 0))).Decode.2.1 = ErrNotImplemented ∧
    ¬ ∃ v : String,
      (NewDecoder (some (Reader.mk sampleVersionStream 0))).Decode.2.1
        = some (GoError.unsupportedVersionError (UnsupportedVersionError.mk v)) := by
  refine ⟨rfl, ?_⟩
  rintro ⟨v, h⟩
  exact errNotImplemented_not_unsupportedVersion _ h

/-- C8, amended: for every input stream, whatever version it declares,
`Decode` fails with `ErrNotImplemented`, which is not an
`UnsupportedVersionError` of any version, returns no Timeline, and leaves the
decoder and its reader as they were (no byte of the stream is consumed, so no
object instance is decoded). -/
theorem decode_fails_before_reading (r : Reader) :
    (NewDecoder (some r)).Decode.1 = none ∧
    (NewDecoder (some r)).Decode.2.1 = ErrNotImplemented ∧
    ErrNotImplemented ≠ none ∧
    (∀ ve : UnsupportedVersionError,
      (NewDecoder (some r)).Decode.2.1 ≠ some (GoError.unsupportedVersionError ve)) ∧
    (NewDecoder (some r)).Decode.2.2 = NewDecoder (some r) ∧
    (NewDecoder (some r)).Decode.2.2.r = some r :=
  ⟨rfl, rfl, errNotImplemented_ne_nil,
   fun ve => errNotImplemented_not_unsupportedVersion ve, rfl, rfl⟩

/-! ## The text of `UnsupportedVersionError` -/

/-- C9: for every version string `v`, the `Error()` text of
`UnsupportedVersionError{Version: v}` is exactly
`"aaf: unsupported version "` followed by `v`; `v` is a suffix of the text;
and errors with different versions have different texts. The same text is
what the `error` interface reports for the value. -/
theorem unsupportedVersion_names_version (v : String) :
    (UnsupportedVersionError.mk v).Error = "aaf: unsupported version " ++ v ∧
    (GoError.unsupportedVersionError (UnsupportedVersionError.mk v)).Error
      = "aaf: unsupported version " ++ v ∧
    v.data <:+ (UnsupportedVersionError.mk v).Error.data ∧
    (∀ v' : String, v ≠ v' →
      (UnsupportedVersionError.mk v).Error ≠ (UnsupportedVersionError.mk v').Error) := by
  refine ⟨rfl, rfl, ?_, ?_⟩
  · show v.data <:+ ("aaf: unsupported version " ++ v).data
    rw [String.data_append]
    exact List.suffix_append _ _
  · intro v' hne heq
    exact hne (string_append_left_cancel _ _ _ heq)

/-- Witness for C9: the versions `1.1` and `2.0` give different texts. -/
theorem unsupportedVersion_names_version_witness :
    "1.1" ≠ "2.0" ∧
    (UnsupportedVersionError.mk "1.1").Error ≠ (UnsupportedVersionError.mk "2.0").Error ∧
    (UnsupportedVersionError.mk "1.1").Error = "aaf: unsupported version 1.1" :=
  ⟨by decide,
   (unsupportedVersion_names_version "1.1").2.2.2 "2.0" (by decide),
   by decide⟩

/-! ## A failing encode writes nothing -/

/-- C10: for every encoder, timeline, object and options map, when `Encode`
or `EncodeWithOptions` returns a non-nil error, the writer holds exactly the
bytes it held before the call and the fields of the encoder are unchanged. -/
theorem failing_encode_writes_nothing (e : Encoder) (t : Option Timeline)
    (obj : Option SerializableObject) (options : Options) :
    ((e.Encode t).1 ≠ none →
      (e.Encode t).2.output = e.output ∧ (e.Encode t).2.w = e.w ∧ (e.Encode t).2 = e) ∧
    ((e.EncodeWithOptions obj options).1 ≠ none →
      (e.EncodeWithOptions obj options).2.output = e.output ∧
      (e.EncodeWithOptions obj options).2.w = e.w ∧
      (e.EncodeWithOptions obj options).2 = e) :=
  ⟨fun _ => ⟨rfl, rfl, rfl⟩, fun _ => ⟨rfl, rfl, rfl⟩⟩

/-- Witness for C10: encoding the scenario timeline into a writer that
already holds three bytes fails and the writer still holds those three
bytes. -/
theorem failing_encode_writes_nothing_witness :
    ((NewEncoder (some (Writer.mk [1, 2, 3]))).Encode (some sampleTimeline)).1 ≠ none ∧
    ((NewEncoder (some (Writer.mk [1, 2, 3]))).Encode (some sampleTimeline)).2.output
      = [1, 2, 3] ∧
    ((NewEncoder (some (Writer.mk [1, 2, 3]))).EncodeWithOptions
        (some (SerializableObject.timeline sampleTimeline)) none).2.output = [1, 2, 3] :=
  ⟨errNotImplemented_ne_nil,
   ((failing_encode_writes_nothing (NewEncoder (some (Writer.mk [1, 2, 3])))
      (some sampleTimeline) (some (SerializableObject.timeline sampleTimeline)) none).1
      errNotImplemented_ne_nil).1,
   ((failing_encode_writes_nothing (NewEncoder (some (Writer.mk [1, 2, 3])))
      (some sampleTimeline) (some (SerializableObject.timeline sampleTimeline)) none).2
      errNotImplemented_ne_nil).1⟩

end aaf
